import Mathlib

/-!
Verification of the session concurrency bridge and handoff router of the
DexaMedica training repository: a shallow embedding of the hands-off agent
(`src/hands_off_agent/agent.py`), its snapshot codec (`src/utils/state.py`,
`src/utils/history.py`), the singleton decorator (`src/utils/singleton.py`),
the multi agent (`src/multi_agent/agent.py`) and the FastAPI agent routes
(`src/utils/fastapi/routes/agents.py`), with theorems settling the
specification claims about them.

External libraries (Python `base64` / `zlib` / `json`, semantic-kernel's
runtime and `ChatHistory`) are not repository code: `base64` is modelled
concretely below, while `zlib` and the JSON / chat-history serializers are
abstracted as functions carrying their documented inverse contracts as
hypotheses, and the runtime's `save_state` by its documented behaviour
(return the current, possibly empty, agent-state mapping).
-/

namespace DexaMedica

/-- Python exception shapes raised along the modelled code paths. -/
inductive PyErr where
  | attributeError (attr : String)
  | typeError (msg : String)
  | exceptionMsg (msg : String)
  | httpError (status : Nat) (detail : String)
  deriving DecidableEq, Repr

/-- JSON values as passed through `json.dumps` / `json.loads` by the state
codec (state dicts).  Numbers are restricted to integers, which covers the
runtime-state payloads the codec transports. -/
inductive Json where
  | null
  | bool (b : Bool)
  | num (n : Int)
  | str (s : String)
  | arr (elems : List Json)
  | obj (fields : List (String × Json))

/-! ### Base64 (Python `base64.b64encode` / `b64decode`)

Bytes are `Nat`s below 256; the encoder emits the ASCII codes of the
standard base64 alphabet with `'='` (ASCII 61) padding, exactly as
`base64.b64encode` does on the byte strings the codec feeds it. -/

/-- The standard base64 alphabet: sextet value to ASCII code. -/
def b64Char (n : Nat) : Nat :=
  if n < 26 then 65 + n
  else if n < 52 then 97 + (n - 26)
  else if n < 62 then 48 + (n - 52)
  else if n = 62 then 43
  else 47

/-- Inverse of the base64 alphabet: ASCII code to sextet value. -/
def b64CharInv (c : Nat) : Nat :=
  if 65 ≤ c ∧ c ≤ 90 then c - 65
  else if 97 ≤ c ∧ c ≤ 122 then c - 97 + 26
  else if 48 ≤ c ∧ c ≤ 57 then c - 48 + 52
  else if c = 43 then 62
  else 63

/-- `base64.b64encode`: three bytes become four alphabet characters; a final
group of one or two bytes is padded with `'='` (61). -/
def b64encodeBytes : List Nat → List Nat
  | [] => []
  | [b1] => [b64Char (b1 / 4), b64Char (b1 % 4 * 16), 61, 61]
  | [b1, b2] => [b64Char (b1 / 4), b64Char (b1 % 4 * 16 + b2 / 16),
                 b64Char (b2 % 16 * 4), 61]
  | b1 :: b2 :: b3 :: rest =>
      b64Char (b1 / 4) :: b64Char (b1 % 4 * 16 + b2 / 16) ::
      b64Char (b2 % 16 * 4 + b3 / 64) :: b64Char (b3 % 64) :: b64encodeBytes rest

/-- `base64.b64decode` on well-formed input: four characters back to three
bytes, with `'='` padding signalling a short final group. -/
def b64decodeBytes : List Nat → List Nat
  | c1 :: c2 :: c3 :: c4 :: rest =>
      if c3 = 61 then [b64CharInv c1 * 4 + b64CharInv c2 / 16]
      else if c4 = 61 then
        [b64CharInv c1 * 4 + b64CharInv c2 / 16,
         b64CharInv c2 % 16 * 16 + b64CharInv c3 / 4]
      else
        (b64CharInv c1 * 4 + b64CharInv c2 / 16) ::
        (b64CharInv c2 % 16 * 16 + b64CharInv c3 / 4) ::
        (b64CharInv c3 % 4 * 64 + b64CharInv c4) :: b64decodeBytes rest
  | _ => []

/-! ### Snapshot codec (src/utils/state.py, src/utils/history.py)

`json.dumps` composed with `.encode()` is abstracted as a function
`dumps : Json → List Nat` producing the UTF-8 bytes of the dumped text, and
`.decode()` composed with `json.loads` as `loads : List Nat → Option Json`;
`zlib.compress` / `zlib.decompress` as `zcompress` / `zdecompress`;
`ChatHistory.serialize` / `ChatHistory.restore_chat_history` as
`serialize` / `restore` over an abstract history type.  Their inverse
contracts are hypotheses of the round-trip theorem. -/

/-- `state_to_base64` (utils/state.py:5-6):
`base64.b64encode(json.dumps(history).encode()).decode()`. -/
def state_to_base64 (dumps : Json → List Nat) (history : Json) : List Nat :=
  b64encodeBytes (dumps history)

/-- `state_from_base64` (utils/state.py:8-10):
`json.loads(base64.b64decode(data.encode()).decode())`. -/
def state_from_base64 (loads : List Nat → Option Json) (data : List Nat) :
    Option Json :=
  loads (b64decodeBytes data)

/-- `state_compress` (utils/state.py:12-13):
`base64.b64encode(zlib.compress(json.dumps(history).encode())).decode()`. -/
def state_compress (dumps : Json → List Nat) (zcompress : List Nat → List Nat)
    (history : Json) : List Nat :=
  b64encodeBytes (zcompress (dumps history))

/-- `state_decompress` (utils/state.py:15-17):
`json.loads(zlib.decompress(base64.b64decode(data.encode())).decode())`. -/
def state_decompress (loads : List Nat → Option Json)
    (zdecompress : List Nat → List Nat) (data : List Nat) : Option Json :=
  loads (zdecompress (b64decodeBytes data))

/-- `chat_history_to_base64` (utils/history.py:16-17):
`base64.b64encode(history.serialize().encode()).decode()`. -/
def chat_history_to_base64 {H : Type} (serialize : H → List Nat) (history : H) :
    List Nat :=
  b64encodeBytes (serialize history)

/-- `chat_history_from_base64` (utils/history.py:19-21):
`ChatHistory.restore_chat_history(base64.b64decode(data.encode()).decode())`. -/
def chat_history_from_base64 {H : Type} (restore : List Nat → Option H)
    (data : List Nat) : Option H :=
  restore (b64decodeBytes data)

/-- `chat_history_compress` (utils/history.py:24-25). -/
def chat_history_compress {H : Type} (serialize : H → List Nat)
    (zcompress : List Nat → List Nat) (history : H) : List Nat :=
  b64encodeBytes (zcompress (serialize history))

/-- `chat_history_decompress` (utils/history.py:27-29). -/
def chat_history_decompress {H : Type} (restore : List Nat → Option H)
    (zdecompress : List Nat → List Nat) (data : List Nat) : Option H :=
  restore (zdecompress (b64decodeBytes data))

/-! ### Singleton decorator (src/utils/singleton.py) -/

/-- State of the `instances` dictionary closed over by `singleton`'s wrapper,
restricted to one decorated class (distinct classes use distinct keys of the
dictionary and are independent).  `ctorCalls` is a ghost count of how often
the class body ran. -/
structure SingletonSt (Inst : Type) where
  instances : Option Inst
  ctorCalls : Nat

/-- The `wrapper` returned by `singleton` (utils/singleton.py:16-22): if the
class has no stored instance yet, call the constructor with the given
arguments and store the result; always return the stored instance. -/
def singletonWrapper {Args Inst : Type} (ctor : Args → Inst) (args : Args)
    (s : SingletonSt Inst) : Inst × SingletonSt Inst :=
  match s.instances with
  | some inst => (inst, s)
  | none =>
      let inst := ctor args
      (inst, { instances := some inst, ctorCalls := s.ctorCalls + 1 })

/-- A sequence of constructor calls through the wrapper, returning the values
each call produced and the final dictionary state. -/
def singletonRun {Args Inst : Type} (ctor : Args → Inst) :
    List Args → SingletonSt Inst → List Inst × SingletonSt Inst
  | [], s => ([], s)
  | a :: rest, s =>
      let p := singletonWrapper ctor a s
      let q := singletonRun ctor rest p.2
      (p.1 :: q.1, q.2)

/-! ### The hands-off agent (src/hands_off_agent/agent.py) -/

/-- Message roles stored in the chat history. -/
inductive Role where
  | user
  | assistant
  | tool
  deriving DecidableEq, Repr

/-- One chat-history entry. -/
structure ChatMsg where
  role : Role
  content : String
  deriving DecidableEq, Repr

/-- Observable state of the `HandsoffAgent` singleton
(hands_off_agent/agent.py:22-74): the two queues, the chat history, the
`main_session` thread handle (`None` until a worker is started) and whether
that thread is still executing its loop (`workerAlive`). -/
structure HAgent where
  queue_input : List String
  queue_output : List String
  chat_history : List ChatMsg
  main_session : Option Unit
  workerAlive : Bool
  deriving DecidableEq, Repr

/-- Attribute names ever defined on `HandsoffAgent` instances: the class
attributes (hands_off_agent/agent.py:24-31), the fields assigned in
`__init__` (33-74) and the methods.  Neither `coroutine` nor
`restart_agent` is among them. -/
def handsoffAgentAttrs : List String :=
  ["queue_input", "queue_output", "chat_history", "main_session",
   "output_buffer", "runtime", "agents", "handoffs", "handoff_orchestration",
   "counter", "__init__", "_on_agent_response_", "_return_output_debounce_",
   "__user_input__", "chat", "start_agent", "chat_loop", "__loop_executor__",
   "stop_agent", "is_running", "get_state", "get_history", "set_state",
   "set_history"]

/-- Python attribute lookup on the `HandsoffAgent` singleton:
`AttributeError` for a name that is never defined. -/
def handsoffGetattr (attrName : String) : Except PyErr Unit :=
  if attrName ∈ handsoffAgentAttrs then Except.ok ()
  else Except.error (PyErr.attributeError attrName)

/-- `stop_agent` (agent.py:158-161): its first action reads
`self.coroutine`; no code path in the class ever assigns that attribute, so
the read raises `AttributeError` and the rest of the body is unreachable
(the `ok` branch below is dead because `coroutine` is not among the
attributes). -/
def stop_agent (s : HAgent) : Except PyErr HAgent :=
  match handsoffGetattr "coroutine" with
  | Except.error e => Except.error e
  | Except.ok _ => Except.ok s

/-- The recovery path of the chat route (routes/agents.py:231) evaluates
`hands_off_agent.restart_agent()`; the attribute lookup happens before any
call. -/
def restart_agent_call : Except PyErr Unit := handsoffGetattr "restart_agent"

/-- Outcome of a `chat` call as seen by the caller. -/
inductive ChatOutcome where
  | reply (text : String) (after : HAgent)
  | stillBlocked (after : HAgent)
  | blocksForever (after : HAgent)
  | raises (e : PyErr) (after : HAgent)
  deriving DecidableEq, Repr

/-- `HandsoffAgent.chat` (agent.py:107-127): append the user message to the
history, enqueue it, lazily start a worker when `main_session` is `None`,
then block in `queue_output.get()`.  The blocking get is classified by the
state it blocks in: a queued reply is returned; with an empty queue the
call stays blocked — forever when the worker thread is no longer alive,
since no other code ever puts to `queue_output`.  No path inspects a fault
or raises: the `start_agent` guard cannot fire here, being reached only
when `main_session` is `None`. -/
def chat (message : String) (s : HAgent) : ChatOutcome :=
  let s1 : HAgent :=
    { s with chat_history := s.chat_history ++ [⟨Role.user, message⟩],
             queue_input := s.queue_input ++ [message] }
  let s2 : HAgent :=
    if s1.main_session = none then
      { s1 with main_session := some (), workerAlive := true }
    else s1
  match s2.queue_output with
  | r :: rest => ChatOutcome.reply r { s2 with queue_output := rest }
  | [] =>
      if s2.workerAlive then ChatOutcome.stillBlocked s2
      else ChatOutcome.blocksForever s2

/-- A session whose worker thread died after an unrecoverable error
mid-turn: `main_session` still holds the dead thread and nothing is
queued. -/
def faultedAgent : HAgent :=
  { queue_input := [], queue_output := [],
    chat_history := [⟨Role.user, "earlier message"⟩],
    main_session := some (), workerAlive := false }

/-- `HandsoffAgent.set_history` (agent.py:175-176): a plain assignment with
no check that a worker is running. -/
def set_history (history : List ChatMsg) (s : HAgent) : HAgent :=
  { s with chat_history := history }

/-- POST /handsoff/history/import (routes/agents.py:264-278): 400 when the
data is empty, decode the base64 history (400 when that is falsy), then
`set_history` unconditionally — no is-running check anywhere on the
path. -/
def handsoff_history_import (restore : List Nat → Option (List ChatMsg))
    (data : List Nat) (s : HAgent) : Except PyErr HAgent :=
  if data = [] then Except.error (PyErr.httpError 400 "No base64 data provided.")
  else
    match chat_history_from_base64 restore data with
    | none => Except.error (PyErr.httpError 400 "Invalid base64 data.")
    | some h => Except.ok (set_history h s)

/-- A session whose worker is currently running. -/
def runningAgent : HAgent :=
  { queue_input := [], queue_output := [],
    chat_history := [⟨Role.user, "old"⟩],
    main_session := some (), workerAlive := true }

/-- A concrete stand-in for `ChatHistory.restore_chat_history` used on
concrete inputs: restores one assistant message from the bytes `[0,0,0]`. -/
def importRestore : List Nat → Option (List ChatMsg) :=
  fun l => if l = [0, 0, 0] then some [⟨Role.assistant, "new"⟩] else none

/-- A base64 payload (the ASCII codes of "AAAA") decoding to `[0,0,0]`. -/
def importData : List Nat := [65, 65, 65, 65]

/-! ### State export routes (routes/agents.py:306-341) -/

/-- Modelled from the semantic-kernel library: `InProcessRuntime.save_state`
returns the mapping of the instantiated agents' states; on a runtime that
was never started this is the (empty) mapping.  It has no "not running"
failure mode. -/
structure Runtime where
  agent_states : List (String × Json)

/-- The library's `runtime.save_state()`. -/
def save_state (r : Runtime) : Json := Json.obj r.agent_states

/-- `HandsoffAgent.get_state` (agent.py:166-167):
`await self.runtime.save_state()`, with no check of any kind on whether a
worker ever started. -/
def get_state (r : Runtime) : Json := save_state r

/-- A runtime belonging to a fresh session whose worker never started. -/
def freshRuntime : Runtime := { agent_states := [] }

/-- GET /handsoff/state/export (routes/agents.py:306-314): awaits
`get_state` and base64-encodes the JSON dump of the returned dict; there is
no failure branch. -/
def handsoff_state_export (dumps : Json → List Nat) (r : Runtime) :
    Except PyErr (List Nat) :=
  Except.ok (state_to_base64 dumps (get_state r))

/-- Shapes of the Python value flowing into `json.loads` in the
compress-export route. -/
inductive PyVal where
  | str (s : String)
  | coroutine
  deriving DecidableEq, Repr

/-- `hands_off_agent.get_state()` as written at routes/agents.py:337: the
`async def` is called without `await`, so the expression evaluates to the
coroutine object, never to the state. -/
def get_state_unawaited (_r : Runtime) : PyVal := PyVal.coroutine

/-- `json.loads` accepts only text (str/bytes/bytearray); on any other
value it raises `TypeError` naming the value's type. -/
def json_loads_val (loadsStr : String → Option Json) : PyVal → Except PyErr Json
  | PyVal.str s =>
      match loadsStr s with
      | some v => Except.ok v
      | none => Except.error (PyErr.exceptionMsg "json.decoder.JSONDecodeError")
  | PyVal.coroutine =>
      Except.error (PyErr.typeError
        "the JSON object must be str, bytes or bytearray, not coroutine")

/-- GET /handsoff/state/export/compress (routes/agents.py:332-341):
`state_str = hands_off_agent.get_state()` (un-awaited), then
`json.loads(state_str)`, then `state_compress`. -/
def handsoff_state_export_compress (loadsStr : String → Option Json)
    (dumps : Json → List Nat) (zcompress : List Nat → List Nat)
    (r : Runtime) : Except PyErr (List Nat) :=
  match json_loads_val loadsStr (get_state_unawaited r) with
  | Except.error e => Except.error e
  | Except.ok d => Except.ok (state_compress dumps zcompress d)

/-! ### Multi-agent chat route (routes/agents.py:130-143,
src/multi_agent/agent.py) -/

/-- Attribute names ever defined on `MultiAgent` instances
(multi_agent/agent.py:13-117): class attributes, `__init__` fields and
methods.  There is no `chat` among them. -/
def multiAgentAttrs : List String :=
  ["buffered_user_input", "main_tasks", "chat_history", "agents", "handoffs",
   "handoff_orchestration", "runtime", "__init__", "_on_agent_response",
   "_wait_for_user_input", "start_agent", "send_message", "get_state",
   "get_history", "set_state", "set_history"]

/-- Python attribute lookup on the `MultiAgent` singleton. -/
def multiAgentGetattr (attrName : String) : Except PyErr Unit :=
  if attrName ∈ multiAgentAttrs then Except.ok ()
  else Except.error (PyErr.attributeError attrName)

/-- POST /multi/chat (routes/agents.py:130-143): 400 when the message is
empty (falsy), otherwise evaluate `multi_agent.chat(request.chat)` inside
`try/except Exception`, converting any exception `e` into HTTP 500 with
`str(e)` appended to the detail.  The `ok` branch is dead because `chat` is
not an attribute of `MultiAgent`. -/
def multi_chat (chat_msg : String) : Except PyErr String :=
  if chat_msg = "" then
    Except.error (PyErr.httpError 400 "No chat message provided in the request body.")
  else
    match multiAgentGetattr "chat" with
    | Except.error (PyErr.attributeError a) =>
        Except.error (PyErr.httpError 500
          ("Error sending message to multi-agent. 'MultiAgent' object has no attribute '"
            ++ a ++ "'"))
    | Except.error _ =>
        Except.error (PyErr.httpError 500 "Error sending message to multi-agent. ")
    | Except.ok _ => Except.ok ""

/-! ### The lazy worker start, interleaved and serialized
(agent.py:120-121 and 130-138) -/

/-- Shared state of the lazy-start section: the `main_session` field and a
ghost count of worker threads ever `start()`ed. -/
structure StartSt where
  main_session : Option Unit
  started : Nat
  deriving DecidableEq, Repr

/-- Program counter of one caller running `chat`'s lazy start
(agent.py:120-121) into `start_agent` (130-138), at Python statement
granularity: the `is None` read in `chat`, the `is not None` read in
`start_agent`, and the create-thread-and-start write are separate,
interleavable steps (the class takes no lock). -/
inductive StartPc where
  | checkChat
  | checkStart
  | assign
  | done (raised : Bool)
  deriving DecidableEq, Repr

/-- One step of one caller.  `checkStart`'s raising branch models
`raise Exception("Multi-agent is already running.")`. -/
def startStep (pc : StartPc) (s : StartSt) : StartPc × StartSt :=
  match pc with
  | StartPc.checkChat =>
      if s.main_session = none then (StartPc.checkStart, s)
      else (StartPc.done false, s)
  | StartPc.checkStart =>
      if s.main_session = none then (StartPc.assign, s)
      else (StartPc.done true, s)
  | StartPc.assign =>
      (StartPc.done false, { main_session := some (), started := s.started + 1 })
  | StartPc.done b => (StartPc.done b, s)

/-- Interleaved execution of two callers, driven by a schedule: `false`
steps the first caller, `true` the second. -/
def runStart : List Bool → StartPc × StartPc → StartSt → (StartPc × StartPc) × StartSt
  | [], pcs, s => (pcs, s)
  | c :: sched, (pa, pb), s =>
      if c then
        let r := startStep pb s
        runStart sched (pa, r.1) r.2
      else
        let r := startStep pa s
        runStart sched (r.1, pb) r.2

/-- The two operations touching the worker lifecycle, taken as atomic
(serialized callers). -/
inductive BridgeOp where
  | chatStart
  | startAgent
  deriving DecidableEq, Repr

/-- Serialized semantics: `chat`'s lazy start creates a worker only when
`main_session` is `None` (agent.py:120-121); an explicit `start_agent`
raises when one exists (agent.py:133-134). -/
def applyBridgeOp : BridgeOp → StartSt → StartSt × Option PyErr
  | BridgeOp.chatStart, s =>
      if s.main_session = none then
        ({ main_session := some (), started := s.started + 1 }, none)
      else (s, none)
  | BridgeOp.startAgent, s =>
      if s.main_session = none then
        ({ main_session := some (), started := s.started + 1 }, none)
      else (s, some (PyErr.exceptionMsg "Multi-agent is already running."))

/-- A sequence of serialized lifecycle operations (raised exceptions leave
the state unchanged). -/
def runBridgeOps : List BridgeOp → StartSt → StartSt
  | [], s => s
  | op :: ops, s => runBridgeOps ops (applyBridgeOp op s).1

/-- Invariant of the serialized lifecycle: a worker exists iff exactly one
was ever started. -/
def StartInv (s : StartSt) : Prop :=
  (s.main_session = none ∧ s.started = 0) ∨
  (s.main_session = some () ∧ s.started = 1)

/-! ### The queues between concurrent Send callers and the worker
(agent.py:107-127, 141-152) -/

/-- Program counter of one caller inside `chat`, around the two shared
queues: about to `queue_input.put`, about to call `queue_output.get`,
registered as a waiter inside the get, or returned with a reply. -/
inductive CallerPc where
  | toEnqueue (message : String)
  | toWait
  | waiting
  | got (reply : String)
  deriving DecidableEq, Repr

/-- The bridge's shared queues with two concurrent `chat` callers and the
background worker.  `waiters` is the FIFO list of callers blocked inside
`queue_output.get()` (CPython's condition variable wakes the
longest-waiting thread first); `enqLog` and `processed` are ghost logs of
the input-enqueue order and of the worker's consumption order. -/
structure BridgeSt where
  inQ : List String
  outQ : List String
  waiters : List (Fin 2)
  callers : Fin 2 → CallerPc
  enqLog : List (Fin 2 × String)
  processed : List String

/-- Interleavable actions: a caller enqueues its message, a caller enters
the blocking get, the head waiter takes a queued reply, or the worker
consumes one input and puts the turn's (coalesced) reply. -/
inductive BridgeAct where
  | enq (i : Fin 2)
  | wait (i : Fin 2)
  | recv (i : Fin 2)
  | work
  deriving DecidableEq, Repr

/-- One interleaving step.  The worker is the single consumer of `inQ`
(chat_loop, agent.py:141-152) and replies go to the one shared `outQ`; no
step ties a reply to the caller that sent the message it answers. -/
def bridgeStep (reply : String → String) (a : BridgeAct) (s : BridgeSt) : BridgeSt :=
  match a with
  | BridgeAct.enq i =>
      match s.callers i with
      | CallerPc.toEnqueue m =>
          { s with inQ := s.inQ ++ [m], enqLog := s.enqLog ++ [(i, m)],
                   callers := fun j => if j = i then CallerPc.toWait else s.callers j }
      | _ => s
  | BridgeAct.wait i =>
      match s.callers i with
      | CallerPc.toWait =>
          { s with waiters := s.waiters ++ [i],
                   callers := fun j => if j = i then CallerPc.waiting else s.callers j }
      | _ => s
  | BridgeAct.recv i =>
      match s.waiters, s.outQ with
      | j :: ws, r :: rs =>
          if i = j then
            { s with waiters := ws, outQ := rs,
                     callers := fun k => if k = i then CallerPc.got r else s.callers k }
          else s
      | _, _ => s
  | BridgeAct.work =>
      match s.inQ with
      | m :: rest =>
          { s with inQ := rest, processed := s.processed ++ [m],
                   outQ := s.outQ ++ [reply m] }
      | [] => s

/-- Run a schedule of interleaving steps. -/
def runBridge (reply : String → String) : List BridgeAct → BridgeSt → BridgeSt
  | [], s => s
  | a :: acts, s => runBridge reply acts (bridgeStep reply a s)

/-- Two callers about to send `m1` (caller 0) and `m2` (caller 1). -/
def initBridge (m1 m2 : String) : BridgeSt :=
  { inQ := [], outQ := [], waiters := [],
    callers := fun i => if i = 0 then CallerPc.toEnqueue m1 else CallerPc.toEnqueue m2,
    enqLog := [], processed := [] }

/-- A legal interleaving: both callers enqueue in order 0 then 1, but
caller 1 reaches the blocking get first; the worker then answers the first
message and the head waiter — caller 1 — takes that reply. -/
def raceTrace : List BridgeAct :=
  [BridgeAct.enq 0, BridgeAct.enq 1, BridgeAct.wait 1, BridgeAct.wait 0,
   BridgeAct.work, BridgeAct.recv 1]

/-- A distinguishing per-message reply function for the race run. -/
def raceReply : String → String := fun m => String.append "re:" m

/-- The state after running the race interleaving. -/
def raceFinal : BridgeSt := runBridge raceReply raceTrace (initBridge "m1" "m2")

/-! ### Response coalescer (agent.py:76-96) -/

/-- The debounce flush delay in time units: agent.py:95 arms
`threading.Timer(5, ...)`. -/
def FLUSH_DELAY : Nat := 5

/-- The coalescer's state: the live `output_buffer` and the outbound
`queue_output` (the history append and the counter in
`_on_agent_response_` do not influence the flush and are elided). -/
structure CoalSt where
  output_buffer : List String
  queue_output : List String
  deriving DecidableEq, Repr

/-- The timer body `return_output` (agent.py:87-91): compare the buffer
copied at arm time (`current_buffer`) against the live buffer; when equal,
push the blank-line join of the live buffer onto the output queue and reset
the buffer; when different, do nothing.  (The source passes the live side
as the `memory_buffer` alias of `self.output_buffer`; before any flush of
the turn that alias and `self.output_buffer` are the same list, which is
how it is modelled.) -/
def return_output (current_buffer : List String) (s : CoalSt) : CoalSt :=
  if String.join s.output_buffer = String.join current_buffer then
    { output_buffer := [],
      queue_output := s.queue_output ++ [String.intercalate "\n\n" s.output_buffer] }
  else s

/-- The guard of `_on_agent_response_` (agent.py:81):
`response.content.strip() != ""` — the text contains some non-whitespace
character. -/
def hasContent (text : String) : Bool :=
  text.toList.any fun c => !c.isWhitespace

/-- Timed events driving the coalescer: an agent emission handed to
`_on_agent_response_` at time `t`, or a timer armed with the given buffer
copy expiring at time `t`. -/
inductive CoalEv where
  | emit (t : Nat) (text : String)
  | fire (t : Nat) (snapshot : List String)
  deriving DecidableEq, Repr

/-- Timestamp of an event. -/
def CoalEv.time : CoalEv → Nat
  | CoalEv.emit t _ => t
  | CoalEv.fire t _ => t

/-- Insert an event into a time-sorted list, after any event with the same
timestamp. -/
def insertEv (e : CoalEv) : List CoalEv → List CoalEv
  | [] => [e]
  | f :: fs => if e.time < f.time then e :: f :: fs else f :: insertEv e fs

/-- `_on_agent_response_` and `_return_output_debounce_` (agent.py:76-96)
driven by a time-sorted event queue: an emission whose text is non-blank is
appended to the buffer and arms a timer `FLUSH_DELAY` later carrying a copy
of the buffer; a blank emission is dropped and arms nothing
(`response.content.strip() != ""`); a timer expiry runs `return_output`.
The fuel bounds the number of events processed. -/
def coalRun : Nat → List CoalEv → CoalSt → CoalSt
  | 0, _, s => s
  | _ + 1, [], s => s
  | fuel + 1, e :: es, s =>
      match e with
      | CoalEv.emit t text =>
          if hasContent text then
            let buf := s.output_buffer ++ [text]
            coalRun fuel (insertEv (CoalEv.fire (t + FLUSH_DELAY) buf) es)
              { s with output_buffer := buf }
          else coalRun fuel es s
      | CoalEv.fire _ snapshot => coalRun fuel es (return_output snapshot s)

/-! ### Concrete instances used by the witnesses to discharge the external
library contracts -/

/-- A sample session-state dict. -/
def sampleState : Json := Json.obj [("k", Json.str "v")]

/-- A stand-in for `json.dumps(·).encode()` on the sample state. -/
def sampleDumps : Json → List Nat := fun _ => [123, 34]

/-- A stand-in for `json.loads` inverting `sampleDumps` at the sample. -/
def sampleLoads : List Nat → Option Json :=
  fun l => if l = [123, 34] then some sampleState else none

/-- A stand-in for the text-level `json.loads` of the compress route. -/
def sampleLoadsStr : String → Option Json := fun _ => none

/-- A stand-in for `zlib.compress`. -/
def sampleZc : List Nat → List Nat := fun l => 7 :: l

/-- A stand-in for `zlib.decompress` inverting `sampleZc`. -/
def sampleZd : List Nat → List Nat := fun l => l.drop 1

/-- A stand-in for `ChatHistory.serialize` over histories modelled as
naturals. -/
def sampleSerialize : Nat → List Nat := fun _ => [42]

/-- A stand-in for `ChatHistory.restore_chat_history` inverting
`sampleSerialize` at the sample history `3`. -/
def sampleRestore : List Nat → Option Nat :=
  fun l => if l = [42] then some 3 else none

/-! ## Theorems -/

theorem b64CharInv_b64Char : ∀ n < 64, b64CharInv (b64Char n) = n := by decide

theorem b64Char_ne_pad (n : Nat) : b64Char n ≠ 61 := by
  unfold b64Char
  split <;> [omega; skip]
  split <;> [omega; skip]
  split <;> [omega; skip]
  split <;> omega

/-- The decoder inverts the encoder on byte strings. -/
theorem b64decode_b64encode : ∀ (bs : List Nat), (∀ b ∈ bs, b < 256) →
    b64decodeBytes (b64encodeBytes bs) = bs
  | [], _ => rfl
  | [b1], h => by
      have hb1 : b1 < 256 := h b1 (by simp)
      have e1 := b64CharInv_b64Char (b1 / 4) (by omega)
      have e2 := b64CharInv_b64Char (b1 % 4 * 16) (by omega)
      simp only [b64encodeBytes, b64decodeBytes, e1, e2, if_true,
        List.cons.injEq, and_true]
      omega
  | [b1, b2], h => by
      have hb1 : b1 < 256 := h b1 (by simp)
      have hb2 : b2 < 256 := h b2 (by simp)
      have e1 := b64CharInv_b64Char (b1 / 4) (by omega)
      have e2 := b64CharInv_b64Char (b1 % 4 * 16 + b2 / 16) (by omega)
      have e3 := b64CharInv_b64Char (b2 % 16 * 4) (by omega)
      have n3 : b64Char (b2 % 16 * 4) ≠ 61 := b64Char_ne_pad _
      simp only [b64encodeBytes, b64decodeBytes, if_neg n3, e1, e2, e3, if_true,
        List.cons.injEq, and_true]
      omega
  | b1 :: b2 :: b3 :: rest, h => by
      have hb1 : b1 < 256 := h b1 (by simp)
      have hb2 : b2 < 256 := h b2 (by simp)
      have hb3 : b3 < 256 := h b3 (by simp)
      have ih := b64decode_b64encode rest (fun b hb => h b (by simp [hb]))
      have e1 := b64CharInv_b64Char (b1 / 4) (by omega)
      have e2 := b64CharInv_b64Char (b1 % 4 * 16 + b2 / 16) (by omega)
      have e3 := b64CharInv_b64Char (b2 % 16 * 4 + b3 / 64) (by omega)
      have e4 := b64CharInv_b64Char (b3 % 64) (by omega)
      have n3 : b64Char (b2 % 16 * 4 + b3 / 64) ≠ 61 := b64Char_ne_pad _
      have n4 : b64Char (b3 % 64) ≠ 61 := b64Char_ne_pad _
      simp only [b64encodeBytes, b64decodeBytes, if_neg n3, if_neg n4,
        e1, e2, e3, e4, ih, List.cons.injEq, and_true]
      omega

theorem singletonRun_stable {Args Inst : Type} (ctor : Args → Inst) (inst : Inst) :
    ∀ (calls : List Args) (s : SingletonSt Inst), s.instances = some inst →
      singletonRun ctor calls s = (calls.map fun _ => inst, s)
  | [], s, h => by simp [singletonRun]
  | a :: rest, s, h => by
      simp only [singletonRun, singletonWrapper, h]
      rw [singletonRun_stable ctor inst rest s h]
      simp

/-- Claim C9: for a `@singleton`-decorated class, every constructor call in
a sequence returns the one instance created by the first call, the class
body runs exactly once, and the arguments of the later calls are
ignored. -/
theorem c9_singleton_single_instance {Args Inst : Type} (ctor : Args → Inst)
    (a : Args) (rest : List Args) :
    singletonRun ctor (a :: rest) { instances := none, ctorCalls := 0 } =
      ((a :: rest).map fun _ => ctor a,
       { instances := some (ctor a), ctorCalls := 1 }) := by
  simp only [singletonRun, singletonWrapper]
  rw [singletonRun_stable ctor (ctor a) rest _ rfl]
  simp

/-- Claim C10: every request to the multi-agent chat endpoint with a
non-empty message fails with HTTP 500, because the handler calls
`multi_agent.chat(...)` and `MultiAgent` defines no `chat` attribute, so
the `except` branch always fires. -/
theorem c10_multi_chat_always_500 (m : String) (hm : m ≠ "") :
    multi_chat m = Except.error (PyErr.httpError 500
      "Error sending message to multi-agent. 'MultiAgent' object has no attribute 'chat'") := by
  rw [multi_chat, if_neg hm]
  rfl

/-- Witness for C10 at the concrete message "hello". -/
theorem c10_witness :
    ("hello" : String) ≠ "" ∧
    multi_chat "hello" = Except.error (PyErr.httpError 500
      "Error sending message to multi-agent. 'MultiAgent' object has no attribute 'chat'") :=
  ⟨by decide, c10_multi_chat_always_500 "hello" (by decide)⟩

/-- Claim C3: importing an exported session state returns the same state,
both uncompressed and deflate-compressed, and likewise chat-history import
inverts export: given the inverse contracts of the external JSON and
chat-history serializers and of zlib at the exported values, each `from` /
`decompress` function inverts its `to` / `compress` counterpart. -/
theorem c3_roundtrip {H : Type}
    (dumps : Json → List Nat) (loads : List Nat → Option Json)
    (zcompress zdecompress : List Nat → List Nat)
    (serialize : H → List Nat) (restore : List Nat → Option H)
    (s : Json) (h : H)
    (hdb : ∀ b ∈ dumps s, b < 256)
    (hjson : loads (dumps s) = some s)
    (hzb : ∀ b ∈ zcompress (dumps s), b < 256)
    (hz : zdecompress (zcompress (dumps s)) = dumps s)
    (hsb : ∀ b ∈ serialize h, b < 256)
    (hser : restore (serialize h) = some h)
    (hzb2 : ∀ b ∈ zcompress (serialize h), b < 256)
    (hz2 : zdecompress (zcompress (serialize h)) = serialize h) :
    state_from_base64 loads (state_to_base64 dumps s) = some s ∧
    state_decompress loads zdecompress (state_compress dumps zcompress s) = some s ∧
    chat_history_from_base64 restore (chat_history_to_base64 serialize h) = some h ∧
    chat_history_decompress restore zdecompress
      (chat_history_compress serialize zcompress h) = some h := by
  refine ⟨?_, ?_, ?_, ?_⟩
  · rw [state_from_base64, state_to_base64, b64decode_b64encode _ hdb, hjson]
  · rw [state_decompress, state_compress, b64decode_b64encode _ hzb, hz, hjson]
  · rw [chat_history_from_base64, chat_history_to_base64,
        b64decode_b64encode _ hsb, hser]
  · rw [chat_history_decompress, chat_history_compress,
        b64decode_b64encode _ hzb2, hz2, hser]

/-- Witness for C3 at a concrete state, history and concrete codec
stand-ins satisfying the contracts. -/
theorem c3_witness :
    state_from_base64 sampleLoads (state_to_base64 sampleDumps sampleState) =
      some sampleState ∧
    state_decompress sampleLoads sampleZd
      (state_compress sampleDumps sampleZc sampleState) = some sampleState ∧
    chat_history_from_base64 sampleRestore
      (chat_history_to_base64 sampleSerialize 3) = some 3 ∧
    chat_history_decompress sampleRestore sampleZd
      (chat_history_compress sampleSerialize sampleZc 3) = some 3 :=
  c3_roundtrip sampleDumps sampleLoads sampleZc sampleZd sampleSerialize
    sampleRestore sampleState 3 (by decide) rfl (by decide) rfl (by decide) rfl
    (by decide) rfl

/-- Counterexample to claim C5: on a fresh, never-started session, the plain
state-export route succeeds with an encoded blob instead of failing, and
the compressed variant fails with a `TypeError` from `json.loads` receiving
the un-awaited coroutine — not with any not-running error. -/
theorem c5_counterexample :
    handsoff_state_export sampleDumps freshRuntime =
      Except.ok (b64encodeBytes [123, 34]) ∧
    handsoff_state_export_compress sampleLoadsStr sampleDumps sampleZc freshRuntime =
      Except.error (PyErr.typeError
        "the JSON object must be str, bytes or bytearray, not coroutine") := by
  constructor
  · rfl
  · rfl

/-- Claim C5, amended: `get_state` never checks whether a worker started;
the uncompressed export therefore succeeds on any runtime — in particular a
never-started one — returning the base64 of the dumped (possibly empty)
runtime state, while the compressed export fails on every session state
with a `TypeError`, because the route calls the `async` `get_state` without
awaiting it and feeds the coroutine object to `json.loads`. -/
theorem c5_amended (loadsStr : String → Option Json) (dumps : Json → List Nat)
    (zcompress : List Nat → List Nat) (r : Runtime) :
    handsoff_state_export_compress loadsStr dumps zcompress r =
      Except.error (PyErr.typeError
        "the JSON object must be str, bytes or bytearray, not coroutine") ∧
    handsoff_state_export dumps freshRuntime =
      Except.ok (b64encodeBytes (dumps (Json.obj []))) := by
  constructor
  · rfl
  · rfl

/-- Counterexample to claim C6: `set_history` invoked through the
history-import route while a worker is running (`main_session` set, thread
alive) is not rejected — it succeeds and replaces the transcript. -/
theorem c6_counterexample :
    runningAgent.main_session = some () ∧
    runningAgent.workerAlive = true ∧
    handsoff_history_import importRestore importData runningAgent =
      Except.ok { runningAgent with chat_history := [⟨Role.assistant, "new"⟩] } ∧
    (set_history [⟨Role.assistant, "new"⟩] runningAgent).chat_history ≠
      runningAgent.chat_history := by
  refine ⟨rfl, rfl, ?_, by decide⟩
  rfl

/-- Claim C6, amended: `set_history` replaces the history wholesale
unconditionally — whether or not a worker is running — leaving every other
field unchanged; the import route performs no is-running check and accepts
any decodable payload. -/
theorem c6_amended (restore : List Nat → Option (List ChatMsg))
    (data : List Nat) (s : HAgent) (h : List ChatMsg)
    (hne : data ≠ [])
    (hdec : chat_history_from_base64 restore data = some h) :
    handsoff_history_import restore data s =
      Except.ok { s with chat_history := h } := by
  rw [handsoff_history_import, if_neg hne, hdec]
  rfl

/-- Witness for C6 (amended) at a running session and concrete payload. -/
theorem c6_witness :
    importData ≠ [] ∧
    chat_history_from_base64 importRestore importData =
      some [⟨Role.assistant, "new"⟩] ∧
    handsoff_history_import importRestore importData runningAgent =
      Except.ok { runningAgent with chat_history := [⟨Role.assistant, "new"⟩] } :=
  ⟨by decide, by decide,
   c6_amended importRestore importData runningAgent [⟨Role.assistant, "new"⟩]
     (by decide) (by decide)⟩

/-- Claim C4 (code bug): after the worker thread has died from an
unrecoverable error, `chat` does not fail fast — it appends and enqueues
the message and then blocks forever in `queue_output.get()`; no code path
of `chat` ever raises, so the route-level recovery (which additionally
calls the non-existent `restart_agent`) can never trigger. -/
theorem c4_faulted_send_blocks :
    chat "hello" faultedAgent = ChatOutcome.blocksForever
      { queue_input := ["hello"], queue_output := [],
        chat_history := [⟨Role.user, "earlier message"⟩, ⟨Role.user, "hello"⟩],
        main_session := some (), workerAlive := false } ∧
    ∀ (m : String) (s : HAgent) (e : PyErr) (t : HAgent),
      chat m s ≠ ChatOutcome.raises e t := by
  constructor
  · rfl
  · intro m s e t
    rw [chat]
    split
    · simp
    · split <;> try simp
      split <;> simp

/-- Claim C7 (code bug): the `Restart` operation does not exist — the route
recovery path's `hands_off_agent.restart_agent()` raises `AttributeError`,
and `stop_agent` itself raises `AttributeError` on every state because its
first read, `self.coroutine`, names an attribute no code path ever
assigns. -/
theorem c7_restart_missing :
    restart_agent_call = Except.error (PyErr.attributeError "restart_agent") ∧
    ∀ s : HAgent, stop_agent s = Except.error (PyErr.attributeError "coroutine") := by
  constructor
  · rfl
  · intro s
    rfl

theorem runBridgeOps_inv : ∀ (ops : List BridgeOp) (s : StartSt), StartInv s →
    StartInv (runBridgeOps ops s)
  | [], _, h => h
  | op :: ops, s, h => by
      apply runBridgeOps_inv ops
      rcases h with ⟨h1, h2⟩ | ⟨h1, h2⟩ <;>
        cases op <;> simp [applyBridgeOp, h1, h2, StartInv]

/-- Counterexample to claim C1: the check-then-start is not atomic.  In the
interleaving where both callers pass `chat`'s `is None` check and
`start_agent`'s guard before either assigns `main_session`, two worker
threads are started — more than one worker becomes active and neither
caller sees the guard's exception. -/
theorem c1_counterexample :
    ¬ ((runStart [false, true, false, true, false, true]
        (StartPc.checkChat, StartPc.checkChat)
        { main_session := none, started := 0 }).2.started ≤ 1) := by
  decide

/-- Claim C1, amended: under serialized calls at most one worker is ever
started — `chat` starts one lazily exactly when none exists, and
`start_agent` while one exists raises "Multi-agent is already running."
and changes nothing — but the guard is a non-atomic check-then-act (no
lock), so two interleaved callers can each start a worker. -/
theorem c1_amended (ops : List BridgeOp) (k : Nat) :
    (runBridgeOps ops { main_session := none, started := 0 }).started ≤ 1 ∧
    applyBridgeOp BridgeOp.startAgent { main_session := some (), started := k } =
      ({ main_session := some (), started := k },
       some (PyErr.exceptionMsg "Multi-agent is already running.")) := by
  constructor
  · have h := runBridgeOps_inv ops { main_session := none, started := 0 }
      (Or.inl ⟨rfl, rfl⟩)
    rcases h with ⟨_, h2⟩ | ⟨_, h2⟩ <;> omega
  · simp [applyBridgeOp]

theorem bridgeStep_fifo (reply : String → String) (a : BridgeAct) (s : BridgeSt)
    (h : s.processed ++ s.inQ = s.enqLog.map Prod.snd) :
    (bridgeStep reply a s).processed ++ (bridgeStep reply a s).inQ =
      (bridgeStep reply a s).enqLog.map Prod.snd := by
  cases a with
  | enq i =>
      rw [bridgeStep]
      split
      · simp only [List.map_append, ← List.append_assoc, h]
        simp
      · exact h
  | wait i =>
      rw [bridgeStep]
      split
      · exact h
      · exact h
  | recv i =>
      rw [bridgeStep]
      split
      · split
        · exact h
        · exact h
      · exact h
  | work =>
      rw [bridgeStep]
      split
      · next m rest heq =>
          simp only [List.append_assoc, List.singleton_append]
          rw [← heq, h]
      · exact h

theorem runBridge_fifo (reply : String → String) :
    ∀ (acts : List BridgeAct) (s : BridgeSt),
      s.processed ++ s.inQ = s.enqLog.map Prod.snd →
      (runBridge reply acts s).processed ++ (runBridge reply acts s).inQ =
        (runBridge reply acts s).enqLog.map Prod.snd
  | [], _, h => h
  | a :: acts, s, h =>
      runBridge_fifo reply acts (bridgeStep reply a s) (bridgeStep_fifo reply a s h)

/-- Counterexample to claim C8: both callers enqueue (caller 0 first), but
caller 1 reaches the blocking `queue_output.get()` first; the single shared
output queue hands the reply produced for caller 0's message to caller 1,
so replies are not observed by each caller in enqueue order. -/
theorem c8_counterexample :
    raceFinal.enqLog = [((0 : Fin 2), "m1"), ((1 : Fin 2), "m2")] ∧
    raceFinal.callers 1 = CallerPc.got "re:m1" ∧
    raceFinal.callers 1 ≠ CallerPc.got (raceReply "m2") ∧
    raceFinal.callers 0 = CallerPc.waiting := by
  refine ⟨rfl, rfl, ?_, rfl⟩
  decide

/-- Claim C8, amended: inbound turns are consumed by the single worker in
exactly the order concurrent `Send` callers enqueued them (FIFO input
queue, single consumer) — but replies are not matched to callers: all
blocked callers share one output queue, so a caller that enqueued later can
take an earlier caller's reply. -/
theorem c8_amended (reply : String → String) (m1 m2 : String)
    (acts : List BridgeAct) :
    (runBridge reply acts (initBridge m1 m2)).processed ++
      (runBridge reply acts (initBridge m1 m2)).inQ =
      (runBridge reply acts (initBridge m1 m2)).enqLog.map Prod.snd :=
  runBridge_fifo reply acts (initBridge m1 m2) rfl

theorem hasContent_pos (m : String) (h : hasContent m = true) : 0 < m.length := by
  unfold hasContent at h
  rw [List.any_eq_true] at h
  obtain ⟨c, hc, -⟩ := h
  cases m with
  | mk cs =>
      cases cs with
      | nil => simp [String.toList] at hc
      | cons a as => simp [String.length]

theorem join_two_ne (m1 m2 : String) (hp : 0 < m2.length) :
    String.join [m1, m2] ≠ String.join [m1] := by
  intro he
  have hl := congrArg String.length he
  simp [String.join, String.length_append] at hl
  omega

theorem join_three_ne_two (m1 m2 m3 : String) (hp : 0 < m3.length) :
    String.join [m1, m2, m3] ≠ String.join [m1, m2] := by
  intro he
  have hl := congrArg String.length he
  simp [String.join, String.length_append] at hl
  omega

theorem join_three_ne_one (m1 m2 m3 : String) (hp : 0 < m2.length) :
    String.join [m1, m2, m3] ≠ String.join [m1] := by
  intro he
  have hl := congrArg String.length he
  simp [String.join, String.length_append] at hl
  omega

/-- Claim C2: when the agent layer emits three non-blank messages, each
arriving less than one flush delay after the previous, exactly one reply is
pushed onto the outbound queue — the blank-line join of the three texts in
emission order — and the buffer is cleared; the blocked `Send` returns that
single string.  The earlier timers find the buffer changed since their
arm-time copy and do nothing; only the last timer flushes. -/
theorem c2_debounce_single_reply (t1 t2 t3 : Nat) (m1 m2 m3 : String)
    (h1 : hasContent m1 = true) (h2 : hasContent m2 = true)
    (h3 : hasContent m3 = true)
    (o12 : t1 < t2) (o23 : t2 < t3)
    (g12 : t2 < t1 + FLUSH_DELAY) (g23 : t3 < t2 + FLUSH_DELAY) :
    coalRun 6 [CoalEv.emit t1 m1, CoalEv.emit t2 m2, CoalEv.emit t3 m3]
      { output_buffer := [], queue_output := [] } =
      { output_buffer := [],
        queue_output := [String.intercalate "\n\n" [m1, m2, m3]] } := by
  have g12A : t2 < t1 + 5 := by simpa [FLUSH_DELAY] using g12
  have g23A : t3 < t2 + 5 := by simpa [FLUSH_DELAY] using g23
  have p2 := hasContent_pos m2 h2
  have p3 := hasContent_pos m3 h3
  have d1 := join_two_ne m1 m2 p2
  have d2 := join_three_ne_two m1 m2 m3 p3
  have d3 := join_three_ne_one m1 m2 m3 p2
  have n12 : ¬ (t1 + 5 < t2) := by omega
  have n21 : ¬ (t2 + 5 < t1 + 5) := by omega
  have n23 : ¬ (t2 + 5 < t3) := by omega
  have n31 : ¬ (t3 + 5 < t1 + 5) := by omega
  have n32 : ¬ (t3 + 5 < t2 + 5) := by omega
  by_cases hc : t1 + 5 < t3
  · simp only [coalRun, insertEv, CoalEv.time, FLUSH_DELAY,
      h1, h2, h3, if_true, if_neg n12, if_pos hc, if_neg n21, if_neg n23,
      if_neg n32]
    simp [return_output, d1, d2, d3]
  · simp only [coalRun, insertEv, CoalEv.time, FLUSH_DELAY,
      h1, h2, h3, if_true, if_neg n12, if_neg hc, if_neg n23, if_neg n21,
      if_neg n31, if_neg n32]
    simp [return_output, d1, d2, d3]

/-- Witness for C2 at concrete times 0, 1, 2 and texts "a", "b", "c". -/
theorem c2_witness :
    hasContent "a" = true ∧ hasContent "b" = true ∧ hasContent "c" = true ∧
    (0 : Nat) < 1 ∧ (1 : Nat) < 2 ∧ 1 < 0 + FLUSH_DELAY ∧ 2 < 1 + FLUSH_DELAY ∧
    coalRun 6 [CoalEv.emit 0 "a", CoalEv.emit 1 "b", CoalEv.emit 2 "c"]
      { output_buffer := [], queue_output := [] } =
      { output_buffer := [],
        queue_output := [String.intercalate "\n\n" ["a", "b", "c"]] } :=
  ⟨by decide, by decide, by decide, by decide, by decide, by decide, by decide,
   c2_debounce_single_reply 0 1 2 "a" "b" "c" (by decide) (by decide) (by decide)
     (by decide) (by decide) (by decide) (by decide)⟩

end DexaMedica
